import Mathlib

/-!
# Verification of the quota-tracking and command-dispatch layer of
# `chatgpt_discord_bot_v1.0.py`

Shallow embedding conventions:

* Python strings are sequences of code points, embedded as `List Char`
  (abbreviated `Str`).  Python `str.startswith`, slicing `s[n:]` and
  `str.strip()` become `pyStartsWith`, `List.drop` and `pyStrip`.
* `datetime` values are embedded as integer timestamps in seconds
  (`Int`); `timedelta(hours=24)` is `86400` seconds, `datetime`
  subtraction is integer subtraction, and `timedelta.seconds` — the
  normalized seconds component, `0 ≤ seconds < 86400` with days carrying
  the sign — is Python's floor-signed `%`, which coincides with `Int`'s
  `%` (`Int.emod`).  `isoformat`/`fromisoformat` round-trips are the
  identity under this abstraction.
* The global dict `user_request_data` is an association list
  `Store := List (String × UserRecord)`; a JSON record may lack keys, so
  every field of `UserRecord` is an `Option`.  Reading a missing key
  raises `KeyError` in Python; the embedding surfaces that as the
  `keyError` flag of `MsgResult` (the dispatcher reads those keys
  outside any `try` block, so the exception escapes `on_message`).
* The persistence file `user_requests.json` is the `file` component of
  `World` (`none` = the file does not exist); `json.dump` of the whole
  mapping is `save_user_request_data`, which copies the in-memory store
  into `file`.  JSON encoding itself is abstracted away: the file holds
  the mapping.
* The two OpenAI calls are oracles: `oracle : Nat → ApiResult` gives the
  outcome of the n-th external call made while handling one message,
  either a payload (completion text / image URL) or an exception.
  The exception classes come from the `openai` v1 library, where
  `APIConnectionError`, `RateLimitError` and `AuthenticationError` are
  all subclasses of `APIError` (the latter two via `APIStatusError`);
  `isInstance…` encodes that hierarchy, and the `except` chains of
  `on_message` are translated as isinstance dispatch in source order.
* `on_message` processes one message at a single instant `now`
  (the original calls `datetime.now()` a few times while handling one
  message; the gap between those calls is not modelled).
-/

abbrev Str := List Char

/-- Python `s.startswith(p)` on sequences of code points. -/
def pyStartsWith : Str → Str → Bool
  | _, [] => true
  | [], _ :: _ => false
  | c :: cs, p :: ps => if c = p then pyStartsWith cs ps else false

/-- Python `s.strip()`: remove leading and trailing whitespace. -/
def pyStrip (s : Str) : Str :=
  ((s.dropWhile Char.isWhitespace).reverse.dropWhile Char.isWhitespace).reverse

/-- `REQUEST_LIMIT = 24` (line 23 of the source). -/
def REQUEST_LIMIT : Int := 24

/-- `IMAGE_REQUEST_LIMIT = 12` (line 24). -/
def IMAGE_REQUEST_LIMIT : Int := 12

/-- `RESET_HOURS = 24` (line 25). -/
def RESET_HOURS : Int := 24

/-- `timedelta(hours=RESET_HOURS)` in seconds. -/
def RESET_WINDOW : Int := RESET_HOURS * 3600

/-- One value of the `user_request_data` mapping.  Each key of the JSON
object may be absent (legacy records), hence the `Option` fields. -/
structure UserRecord where
  count : Option Int
  image_count : Option Int
  last_reset : Option Int
  last_image_reset : Option Int
deriving DecidableEq

/-- The in-memory mapping `user_request_data`, keyed by the user id. -/
abbrev Store := List (String × UserRecord)

/-- Python dict lookup `user_request_data.get(uid)`. -/
def Store.find : Store → String → Option UserRecord
  | [], _ => none
  | (k, v) :: rest, uid => if k = uid then some v else Store.find rest uid

/-- Python dict assignment `user_request_data[uid] = r` (update in place,
or append on first insertion). -/
def Store.set : Store → String → UserRecord → Store
  | [], uid, r => [(uid, r)]
  | (k, v) :: rest, uid, r =>
      if k = uid then (k, r) :: rest else (k, v) :: Store.set rest uid r

/-- The in-memory mapping together with the contents of
`user_requests.json` (`none` when the file does not exist). -/
structure World where
  mem : Store
  file : Option Store
deriving DecidableEq

/-- `save_user_request_data()` (lines 36–39): dump the whole mapping. -/
def save_user_request_data (w : World) : World :=
  { w with file := some w.mem }

/-- Module load (lines 28–34): read `user_requests.json` if it exists,
otherwise start from an empty mapping and write it out immediately. -/
def startup : Option Store → World
  | some s => { mem := s, file := some s }
  | none => save_user_request_data { mem := [], file := none }

/-- `check_and_reset_user_count(user_id)` (lines 41–73).  New users get a
fresh record (both counters 0, both reset stamps `now`); for existing
records the keys `last_reset`, `image_count` and `last_image_reset` are
defaulted when absent (`count` is *not* defaulted), then each capability
window is reset independently when strictly more than `RESET_WINDOW`
has elapsed; both branches save. -/
def check_and_reset_user_count (now : Int) (uid : String) (w : World) : World :=
  match w.mem.find uid with
  | none =>
      let fresh : UserRecord :=
        { count := some 0, image_count := some 0,
          last_reset := some now, last_image_reset := some now }
      save_user_request_data { w with mem := w.mem.set uid fresh }
  | some r0 =>
      let last_reset : Int := match r0.last_reset with | some t => t | none => now
      let image_count : Int := match r0.image_count with | some c => c | none => 0
      let last_image_reset : Int := match r0.last_image_reset with | some t => t | none => now
      let r1 : UserRecord :=
        { count := r0.count, image_count := some image_count,
          last_reset := some last_reset, last_image_reset := some last_image_reset }
      let r2 : UserRecord :=
        if now - last_reset > RESET_WINDOW then
          { r1 with count := some 0, last_reset := some now }
        else r1
      let r3 : UserRecord :=
        if now - last_image_reset > RESET_WINDOW then
          { r2 with image_count := some 0, last_image_reset := some now }
        else r2
      save_user_request_data { w with mem := w.mem.set uid r3 }

/-- `time_until_reset(user_id, reset_type)` (lines 75–82), applied to the
stored reset timestamp.  `time_remaining.seconds` is the normalized
seconds component of the timedelta, i.e. the total seconds modulo 86400
(floor-signed, hence `Int.emod`); it is then split as
`divmod(seconds, 3600)` and rendered `f"{hours}h{minutes}m"`. -/
def time_until_reset (last_reset now : Int) : Str :=
  let reset_time := last_reset + RESET_WINDOW
  let time_remaining := reset_time - now
  let secs := time_remaining % 86400
  let hours := secs / 3600
  let remainder := secs % 3600
  let minutes := remainder / 60
  (toString hours).toList ++ 'h' :: ((toString minutes).toList ++ ['m'])

/-- Exceptions an external OpenAI call can raise (plus `otherException`
for anything that is not an OpenAI error at all). -/
inductive ApiException where
  | apiError
  | apiConnectionError
  | rateLimitError
  | authenticationError
  | otherException
deriving DecidableEq

/-- `isinstance(e, APIError)` under the openai v1 hierarchy: every
OpenAI exception, including connection, rate-limit and authentication
errors, is a subclass of `APIError`. -/
def isInstanceAPIError : ApiException → Bool
  | .otherException => false
  | _ => true

/-- `isinstance(e, APIConnectionError)`. -/
def isInstanceAPIConnectionError : ApiException → Bool
  | .apiConnectionError => true
  | _ => false

/-- `isinstance(e, RateLimitError)`. -/
def isInstanceRateLimitError : ApiException → Bool
  | .rateLimitError => true
  | _ => false

/-- `isinstance(e, AuthenticationError)`. -/
def isInstanceAuthenticationError : ApiException → Bool
  | .authenticationError => true
  | _ => false

/-- The `except` chain of the `!ask` branch (lines 142–160), in source
order: the first clause whose class matches handles the exception. -/
def text_error_reply (e : ApiException) : Str :=
  if isInstanceAPIError e then
    "Sorry, there was an issue with the AI service. Please try again later.".toList
  else if isInstanceAPIConnectionError e then
    "Sorry, I couldn\x27t connect to the AI service. Please check your connection and try again.".toList
  else if isInstanceRateLimitError e then
    "Sorry, I\x27m receiving too many requests at once. Please try again in a moment.".toList
  else if isInstanceAuthenticationError e then
    "Sorry, it looks like I\x27ve run out of credits. Please check back later or contact support.".toList
  else
    "Sorry, something went wrong.".toList

/-- The `except` chain of the `!make` branch (lines 185–203). -/
def image_error_reply (e : ApiException) : Str :=
  if isInstanceAPIError e then
    "Sorry, there was an issue with the image generation service. Please try again later.".toList
  else if isInstanceAPIConnectionError e then
    "Sorry, I couldn\x27t connect to the image generation service. Please check your connection and try again.".toList
  else if isInstanceRateLimitError e then
    "Sorry, I\x27m receiving too many image requests at once. Please try again in a moment.".toList
  else if isInstanceAuthenticationError e then
    "Sorry, it looks like I\x27ve run out of credits. Please check back later or contact support.".toList
  else
    "Sorry, something went wrong.".toList

/-- Outcome of one external OpenAI call: the payload (completion text or
image URL), or a raised exception. -/
inductive ApiResult where
  | ok (payload : Str)
  | exn (e : ApiException)
deriving DecidableEq

/-- One inbound Discord message. -/
structure MsgEvent where
  authorIsBot : Bool
  authorId : String
  content : Str
  attachments : List Str
deriving DecidableEq

/-- Everything observable about handling one message: the final world,
the replies sent to the channel, the chat-completion calls made
(prompt text, optional attachment URL), the image-generation calls made
(their prompts), and whether an uncaught `KeyError` escaped. -/
structure MsgResult where
  w : World
  replies : List Str
  chatCalls : List (Str × Option Str)
  imageCalls : List Str
  keyError : Bool
deriving DecidableEq

/-- The quota-exceeded reply of the `!ask` branch (line 102). -/
def textQuotaReply (wait : Str) : Str :=
  "Sorry, you\x27ve reached the maximum number of requests allowed for today. Please wait ".toList
    ++ wait ++ " before trying again.".toList

/-- The quota-exceeded reply of the `!make` branch (line 166). -/
def imageQuotaReply (wait : Str) : Str :=
  "Sorry, you\x27ve reached the maximum number of image requests allowed for today. Please wait ".toList
    ++ wait ++ " before trying again.".toList

/-- The `!make` success reply (line 183). -/
def imageSuccessReply (url : Str) : Str :=
  "Here is your generated image: ".toList ++ url

/-- The attachment loop of the `!ask` branch (lines 110–127): one
chat-completion call per attachment, each successful reply sent at once;
an exception aborts the loop and is handled by the `except` chain.
Returns the replies and the calls that were attempted. -/
def attachment_loop (content : Str) (urls : List Str) (oracle : Nat → ApiResult)
    (i : Nat) : List Str × List (Str × Option Str) :=
  match urls with
  | [] => ([], [])
  | u :: rest =>
      let text := if content.isEmpty then "What\x27s in this image?".toList else content
      match oracle i with
      | .ok t =>
          let (rs, cs) := attachment_loop content rest oracle (i + 1)
          (pyStrip t :: rs, (text, some u) :: cs)
      | .exn e => ([text_error_reply e], [(text, some u)])

/-- `on_message` (lines 88–203): ignore the bot's own messages, run
`check_and_reset_user_count`, then dispatch on the `!ask` / `!make`
triggers.  Quota checks read `count` / `image_count` (and, on denial,
the reset timestamp) straight from the record — a missing key there is
an uncaught `KeyError`.  If admitted, the counter is incremented and
saved before any external call. -/
def on_message (now : Int) (ev : MsgEvent) (oracle : Nat → ApiResult)
    (w : World) : MsgResult :=
  if ev.authorIsBot then ⟨w, [], [], [], false⟩
  else
    let uid := ev.authorId
    let w1 := check_and_reset_user_count now uid w
    if pyStartsWith ev.content ("!ask".toList) then
      match w1.mem.find uid with
      | none => ⟨w1, [], [], [], true⟩
      | some r =>
        match r.count with
        | none => ⟨w1, [], [], [], true⟩
        | some c =>
          if c ≥ REQUEST_LIMIT then
            match r.last_reset with
            | none => ⟨w1, [], [], [], true⟩
            | some lr => ⟨w1, [textQuotaReply (time_until_reset lr now)], [], [], false⟩
          else
            let r' : UserRecord := { r with count := some (c + 1) }
            let w2 := save_user_request_data { w1 with mem := w1.mem.set uid r' }
            if ev.attachments.isEmpty then
              match oracle 0 with
              | .ok t => ⟨w2, [pyStrip t], [(ev.content, none)], [], false⟩
              | .exn e => ⟨w2, [text_error_reply e], [(ev.content, none)], [], false⟩
            else
              let (rs, cs) := attachment_loop ev.content ev.attachments oracle 0
              ⟨w2, rs, cs, [], false⟩
    else if pyStartsWith ev.content ("!make".toList) then
      match w1.mem.find uid with
      | none => ⟨w1, [], [], [], true⟩
      | some r =>
        match r.image_count with
        | none => ⟨w1, [], [], [], true⟩
        | some ic =>
          if ic ≥ IMAGE_REQUEST_LIMIT then
            match r.last_image_reset with
            | none => ⟨w1, [], [], [], true⟩
            | some lir => ⟨w1, [imageQuotaReply (time_until_reset lir now)], [], [], false⟩
          else
            let r' : UserRecord := { r with image_count := some (ic + 1) }
            let w2 := save_user_request_data { w1 with mem := w1.mem.set uid r' }
            let prompt := pyStrip (ev.content.drop ("!make ".length))
            match oracle 0 with
            | .ok url => ⟨w2, [imageSuccessReply url], [], [prompt], false⟩
            | .exn e => ⟨w2, [image_error_reply e], [], [prompt], false⟩
    else ⟨w1, [], [], [], false⟩


/-- Rendering of a nonnegative duration in seconds as whole hours plus
remainder minutes, the display format the spec describes for
`timeUntilReset`.  A spec-side definition, to be compared with
`time_until_reset`. -/
def specHoursMinutes (d : Int) : Str :=
  (toString (d / 3600)).toList ++ 'h' :: ((toString ((d % 3600) / 60)).toList ++ ['m'])

/-- A fixed `!ask` message used in the counting scenario of §8. -/
def askEvent (uid : String) : MsgEvent :=
  ⟨false, uid, "!ask hello".toList, []⟩

/-- An oracle whose external calls always succeed. -/
def okOracle : Nat → ApiResult := fun _ => ApiResult.ok ("fine".toList)

/-- `n` consecutive `!ask` messages from the same user, all at the same
instant `now` (hence within one window). -/
def iterAsk (now : Int) (uid : String) : Nat → World → World
  | 0, w => w
  | n + 1, w => (on_message now (askEvent uid) okOracle (iterAsk now uid n w)).w

/-! ## Store lemmas -/

theorem Store.find_set_self (s : Store) (uid : String) (r : UserRecord) :
    (s.set uid r).find uid = some r := by
  induction s with
  | nil => simp [Store.set, Store.find]
  | cons kv rest ih =>
    obtain ⟨k, v⟩ := kv
    by_cases h : k = uid <;> simp [Store.set, Store.find, h, ih]

theorem Store.find_set_ne (s : Store) (uid uid' : String) (r : UserRecord)
    (h : uid' ≠ uid) : (s.set uid r).find uid' = s.find uid' := by
  induction s with
  | nil => simp [Store.set, Store.find, Ne.symm h]
  | cons kv rest ih =>
    obtain ⟨k, v⟩ := kv
    by_cases hk : k = uid
    · subst hk
      simp [Store.set, Store.find, Ne.symm h]
    · simp [Store.set, Store.find, hk, ih]

theorem Store.set_set (s : Store) (uid : String) (a b : UserRecord) :
    (s.set uid a).set uid b = s.set uid b := by
  induction s with
  | nil => simp [Store.set]
  | cons kv rest ih =>
    obtain ⟨k, v⟩ := kv
    by_cases hk : k = uid <;> simp [Store.set, hk, ih]

theorem Store.find_set_isSome (s : Store) (uid uid' : String) (r : UserRecord)
    (h : (s.find uid').isSome) : ((s.set uid r).find uid').isSome := by
  by_cases he : uid' = uid
  · subst he
    simp [Store.find_set_self]
  · rwa [Store.find_set_ne s uid uid' r he]

/-! ## Characterizations of check_and_reset_user_count -/

/-- Action on an absent user: a fresh record is inserted and saved. -/
theorem check_and_reset_new (now : Int) (uid : String) (w : World)
    (h : w.mem.find uid = none) :
    check_and_reset_user_count now uid w =
      ⟨w.mem.set uid ⟨some 0, some 0, some now, some now⟩,
       some (w.mem.set uid ⟨some 0, some 0, some now, some now⟩)⟩ := by
  simp [check_and_reset_user_count, h, save_user_request_data]

/-- Action on a fully-populated record: each window resets independently,
exactly when strictly more than `RESET_WINDOW` has elapsed. -/
theorem check_and_reset_found (now : Int) (uid : String) (c ic lr lir : Int)
    (w : World) (h : w.mem.find uid = some ⟨some c, some ic, some lr, some lir⟩) :
    check_and_reset_user_count now uid w =
      let r3 : UserRecord :=
        ⟨if now - lr > RESET_WINDOW then some 0 else some c,
         some (if now - lir > RESET_WINDOW then 0 else ic),
         some (if now - lr > RESET_WINDOW then now else lr),
         some (if now - lir > RESET_WINDOW then now else lir)⟩
      ⟨w.mem.set uid r3, some (w.mem.set uid r3)⟩ := by
  simp only [check_and_reset_user_count, h, save_user_request_data]
  split_ifs <;> rfl

/-- Both branches of `check_and_reset_user_count` end in a save. -/
theorem check_and_reset_is_save (now : Int) (uid : String) (w : World) :
    ∃ w', check_and_reset_user_count now uid w = save_user_request_data w' := by
  unfold check_and_reset_user_count
  cases w.mem.find uid
  · exact ⟨_, rfl⟩
  · exact ⟨_, rfl⟩

theorem check_and_reset_file_sync (now : Int) (uid : String) (w : World) :
    (check_and_reset_user_count now uid w).file =
      some ((check_and_reset_user_count now uid w).mem) := by
  obtain ⟨w', hw⟩ := check_and_reset_is_save now uid w
  rw [hw]
  rfl

/-! ## Branch lemmas for on_message -/

/-- `!ask` with the limit reached: quota reply, nothing else happens. -/
theorem on_message_ask_denied (now : Int) (uid : String) (content : Str)
    (atts : List Str) (oracle : Nat → ApiResult) (w : World) (r : UserRecord)
    (c lr : Int)
    (hask : pyStartsWith content ("!ask".toList) = true)
    (hfind : (check_and_reset_user_count now uid w).mem.find uid = some r)
    (hc : r.count = some c) (hge : c ≥ REQUEST_LIMIT)
    (hlr : r.last_reset = some lr) :
    on_message now ⟨false, uid, content, atts⟩ oracle w =
      ⟨check_and_reset_user_count now uid w,
       [textQuotaReply (time_until_reset lr now)], [], [], false⟩ := by
  simp only [on_message, hask, hfind, hc, hlr, if_pos hge, Bool.false_eq_true,
    if_false, if_true]

/-- `!ask` admitted, no attachments, successful completion call. -/
theorem on_message_ask_admitted_ok (now : Int) (uid : String) (content : Str)
    (oracle : Nat → ApiResult) (w : World) (r : UserRecord) (c : Int) (t : Str)
    (hask : pyStartsWith content ("!ask".toList) = true)
    (hfind : (check_and_reset_user_count now uid w).mem.find uid = some r)
    (hc : r.count = some c) (hlt : c < REQUEST_LIMIT)
    (ho : oracle 0 = ApiResult.ok t) :
    on_message now ⟨false, uid, content, []⟩ oracle w =
      ⟨⟨(check_and_reset_user_count now uid w).mem.set uid
          ({ r with count := some (c + 1) }),
        some ((check_and_reset_user_count now uid w).mem.set uid
          ({ r with count := some (c + 1) }))⟩,
       [pyStrip t], [(content, none)], [], false⟩ := by
  simp only [on_message, hask, hfind, hc, if_neg (not_le.mpr hlt), ho,
    Bool.false_eq_true, if_false, if_true, List.isEmpty_nil,
    save_user_request_data]

/-- `!ask` admitted, no attachments, failing completion call. -/
theorem on_message_ask_admitted_exn (now : Int) (uid : String) (content : Str)
    (oracle : Nat → ApiResult) (w : World) (r : UserRecord) (c : Int)
    (e : ApiException)
    (hask : pyStartsWith content ("!ask".toList) = true)
    (hfind : (check_and_reset_user_count now uid w).mem.find uid = some r)
    (hc : r.count = some c) (hlt : c < REQUEST_LIMIT)
    (ho : oracle 0 = ApiResult.exn e) :
    on_message now ⟨false, uid, content, []⟩ oracle w =
      ⟨⟨(check_and_reset_user_count now uid w).mem.set uid
          ({ r with count := some (c + 1) }),
        some ((check_and_reset_user_count now uid w).mem.set uid
          ({ r with count := some (c + 1) }))⟩,
       [text_error_reply e], [(content, none)], [], false⟩ := by
  simp only [on_message, hask, hfind, hc, if_neg (not_le.mpr hlt), ho,
    Bool.false_eq_true, if_false, if_true, List.isEmpty_nil,
    save_user_request_data]

/-- `!make` with the limit reached: quota reply, nothing else happens. -/
theorem on_message_make_denied (now : Int) (uid : String) (content : Str)
    (atts : List Str) (oracle : Nat → ApiResult) (w : World) (r : UserRecord)
    (ic lir : Int)
    (hnask : pyStartsWith content ("!ask".toList) = false)
    (hmake : pyStartsWith content ("!make".toList) = true)
    (hfind : (check_and_reset_user_count now uid w).mem.find uid = some r)
    (hic : r.image_count = some ic) (hge : ic ≥ IMAGE_REQUEST_LIMIT)
    (hlir : r.last_image_reset = some lir) :
    on_message now ⟨false, uid, content, atts⟩ oracle w =
      ⟨check_and_reset_user_count now uid w,
       [imageQuotaReply (time_until_reset lir now)], [], [], false⟩ := by
  simp only [on_message, hnask, hmake, hfind, hic, hlir, if_pos hge,
    Bool.false_eq_true, if_false, if_true]

/-- `!make` admitted, successful generation call. -/
theorem on_message_make_admitted_ok (now : Int) (uid : String) (content : Str)
    (atts : List Str) (oracle : Nat → ApiResult) (w : World) (r : UserRecord)
    (ic : Int) (url : Str)
    (hnask : pyStartsWith content ("!ask".toList) = false)
    (hmake : pyStartsWith content ("!make".toList) = true)
    (hfind : (check_and_reset_user_count now uid w).mem.find uid = some r)
    (hic : r.image_count = some ic) (hlt : ic < IMAGE_REQUEST_LIMIT)
    (ho : oracle 0 = ApiResult.ok url) :
    on_message now ⟨false, uid, content, atts⟩ oracle w =
      ⟨⟨(check_and_reset_user_count now uid w).mem.set uid
          ({ r with image_count := some (ic + 1) }),
        some ((check_and_reset_user_count now uid w).mem.set uid
          ({ r with image_count := some (ic + 1) }))⟩,
       [imageSuccessReply url], [],
       [pyStrip (content.drop ("!make ".length))], false⟩ := by
  simp only [on_message, hnask, hmake, hfind, hic, if_neg (not_le.mpr hlt), ho,
    Bool.false_eq_true, if_false, if_true, save_user_request_data]

/-- `!make` admitted, failing generation call. -/
theorem on_message_make_admitted_exn (now : Int) (uid : String) (content : Str)
    (atts : List Str) (oracle : Nat → ApiResult) (w : World) (r : UserRecord)
    (ic : Int) (e : ApiException)
    (hnask : pyStartsWith content ("!ask".toList) = false)
    (hmake : pyStartsWith content ("!make".toList) = true)
    (hfind : (check_and_reset_user_count now uid w).mem.find uid = some r)
    (hic : r.image_count = some ic) (hlt : ic < IMAGE_REQUEST_LIMIT)
    (ho : oracle 0 = ApiResult.exn e) :
    on_message now ⟨false, uid, content, atts⟩ oracle w =
      ⟨⟨(check_and_reset_user_count now uid w).mem.set uid
          ({ r with image_count := some (ic + 1) }),
        some ((check_and_reset_user_count now uid w).mem.set uid
          ({ r with image_count := some (ic + 1) }))⟩,
       [image_error_reply e], [],
       [pyStrip (content.drop ("!make ".length))], false⟩ := by
  simp only [on_message, hnask, hmake, hfind, hic, if_neg (not_le.mpr hlt), ho,
    Bool.false_eq_true, if_false, if_true, save_user_request_data]

theorem check_and_reset_mem_set (now : Int) (uid : String) (w : World) :
    ∃ r, (check_and_reset_user_count now uid w).mem = w.mem.set uid r := by
  unfold check_and_reset_user_count
  cases w.mem.find uid
  · exact ⟨_, rfl⟩
  · exact ⟨_, rfl⟩

/-- Handling a non-bot message leaves the world either as
`check_and_reset_user_count` left it, or with a single further record
update for the author that was immediately saved. -/
theorem on_message_world_shape (now : Int) (uid : String) (content : Str)
    (atts : List Str) (oracle : Nat → ApiResult) (w : World) :
    (on_message now ⟨false, uid, content, atts⟩ oracle w).w =
        check_and_reset_user_count now uid w ∨
      ∃ r', (on_message now ⟨false, uid, content, atts⟩ oracle w).w =
        ⟨(check_and_reset_user_count now uid w).mem.set uid r',
         some ((check_and_reset_user_count now uid w).mem.set uid r')⟩ := by
  cases hask : pyStartsWith content ("!ask".toList) with
  | true =>
    cases hfind : (check_and_reset_user_count now uid w).mem.find uid with
    | none =>
      left
      simp only [on_message, hask, hfind, Bool.false_eq_true, if_false, if_true]
    | some r =>
      cases hc : r.count with
      | none =>
        left
        simp only [on_message, hask, hfind, hc, Bool.false_eq_true, if_false,
          if_true]
      | some c =>
        by_cases hge : c ≥ REQUEST_LIMIT
        · cases hlr : r.last_reset with
          | none =>
            left
            simp only [on_message, hask, hfind, hc, hlr, if_pos hge,
              Bool.false_eq_true, if_false, if_true]
          | some lr =>
            left
            simp only [on_message, hask, hfind, hc, hlr, if_pos hge,
              Bool.false_eq_true, if_false, if_true]
        · cases atts with
          | nil =>
            cases ho : oracle 0 with
            | ok t =>
              refine Or.inr ⟨{ r with count := some (c + 1) }, ?_⟩
              rw [on_message_ask_admitted_ok now uid content oracle w r c t
                hask hfind hc (lt_of_not_le hge) ho]
            | exn e =>
              refine Or.inr ⟨{ r with count := some (c + 1) }, ?_⟩
              rw [on_message_ask_admitted_exn now uid content oracle w r c e
                hask hfind hc (lt_of_not_le hge) ho]
          | cons a as =>
            refine Or.inr ⟨{ r with count := some (c + 1) }, ?_⟩
            rcases hal : attachment_loop content (a :: as) oracle 0 with ⟨rs, cs⟩
            simp only [on_message, hask, hfind, hc, if_neg hge, hal,
              Bool.false_eq_true, if_false, if_true, List.isEmpty_cons,
              save_user_request_data]
  | false =>
    cases hmake : pyStartsWith content ("!make".toList) with
    | false =>
      left
      simp only [on_message, hask, hmake, Bool.false_eq_true, if_false, if_true]
    | true =>
      cases hfind : (check_and_reset_user_count now uid w).mem.find uid with
      | none =>
        left
        simp only [on_message, hask, hmake, hfind, Bool.false_eq_true, if_false,
          if_true]
      | some r =>
        cases hic : r.image_count with
        | none =>
          left
          simp only [on_message, hask, hmake, hfind, hic, Bool.false_eq_true,
            if_false, if_true]
        | some ic =>
          by_cases hge : ic ≥ IMAGE_REQUEST_LIMIT
          · cases hlir : r.last_image_reset with
            | none =>
              left
              simp only [on_message, hask, hmake, hfind, hic, hlir, if_pos hge,
                Bool.false_eq_true, if_false, if_true]
            | some lir =>
              left
              simp only [on_message, hask, hmake, hfind, hic, hlir, if_pos hge,
                Bool.false_eq_true, if_false, if_true]
          · cases ho : oracle 0 with
            | ok url =>
              refine Or.inr ⟨{ r with image_count := some (ic + 1) }, ?_⟩
              rw [on_message_make_admitted_ok now uid content atts oracle w r
                ic url hask hmake hfind hic (lt_of_not_le hge) ho]
            | exn e =>
              refine Or.inr ⟨{ r with image_count := some (ic + 1) }, ?_⟩
              rw [on_message_make_admitted_exn now uid content atts oracle w r
                ic e hask hmake hfind hic (lt_of_not_le hge) ho]

/-- A fully-populated record inside both windows is left unchanged. -/
theorem check_and_reset_no_reset (now : Int) (uid : String) (c ic lr lir : Int)
    (w : World)
    (hfind : w.mem.find uid = some ⟨some c, some ic, some lr, some lir⟩)
    (h1 : ¬(now - lr > RESET_WINDOW)) (h2 : ¬(now - lir > RESET_WINDOW)) :
    (check_and_reset_user_count now uid w).mem.find uid =
      some ⟨some c, some ic, some lr, some lir⟩ := by
  rw [check_and_reset_found now uid c ic lr lir w hfind]
  simp only [if_neg h1, if_neg h2]
  exact Store.find_set_self _ _ _

/-! ## Claim theorems -/

/-- C2 (amended): for a fully-populated record, `check_and_reset_user_count`
zeroes a capability's counter and moves its reset stamp to `now` exactly
when `now - lastReset > RESET_WINDOW`, each capability judged
independently; in particular at `now = lastReset + RESET_WINDOW` the
record is not yet reset. -/
theorem window_reset_iff (now : Int) (uid : String) (c ic lr lir : Int)
    (w : World)
    (h : w.mem.find uid = some ⟨some c, some ic, some lr, some lir⟩) :
    (check_and_reset_user_count now uid w).mem.find uid =
      some ⟨if now - lr > RESET_WINDOW then some 0 else some c,
            some (if now - lir > RESET_WINDOW then 0 else ic),
            some (if now - lr > RESET_WINDOW then now else lr),
            some (if now - lir > RESET_WINDOW then now else lir)⟩ := by
  rw [check_and_reset_found now uid c ic lr lir w h]
  exact Store.find_set_self _ _ _

/-- C2 witness: a user whose text window is 1 second past 24h and whose
image window is inside 24h gets exactly the text side reset. -/
theorem window_reset_iff_witness :
    (⟨[("u", ⟨some 5, some 3, some 0, some 10⟩)], none⟩ : World).mem.find "u" =
        some ⟨some 5, some 3, some 0, some 10⟩ ∧
      (check_and_reset_user_count 86401 "u"
          ⟨[("u", ⟨some 5, some 3, some 0, some 10⟩)], none⟩).mem.find "u" =
        some ⟨if (86401 : Int) - 0 > RESET_WINDOW then some 0 else some 5,
              some (if (86401 : Int) - 10 > RESET_WINDOW then 0 else 3),
              some (if (86401 : Int) - 0 > RESET_WINDOW then 86401 else 0),
              some (if (86401 : Int) - 10 > RESET_WINDOW then 86401 else 10)⟩ :=
  ⟨by decide,
   window_reset_iff 86401 "u" 5 3 0 10
     ⟨[("u", ⟨some 5, some 3, some 0, some 10⟩)], none⟩ (by decide)⟩

/-- C2 counterexample: at the exact instant `now = lastReset + 24h` the
counter is *not* reset, refuting "a fresh window begins exactly at
`lastReset + 24h`". -/
theorem window_reset_boundary_cex :
    (86400 : Int) = 0 + RESET_WINDOW ∧
      (check_and_reset_user_count 86400 "u"
          ⟨[("u", ⟨some 5, some 3, some 0, some 0⟩)], none⟩).mem.find "u" =
        some ⟨some 5, some 3, some 0, some 0⟩ := by
  constructor
  · decide
  · decide

/-- C3: a text-window reset touches only `count` and `last_reset`,
leaving the image fields exactly as they were, and vice versa. -/
theorem window_reset_frame (now : Int) (uid : String) (c ic lr lir : Int)
    (w : World)
    (h : w.mem.find uid = some ⟨some c, some ic, some lr, some lir⟩) :
    (now - lr > RESET_WINDOW → ¬(now - lir > RESET_WINDOW) →
      (check_and_reset_user_count now uid w).mem.find uid =
        some ⟨some 0, some ic, some now, some lir⟩) ∧
    (¬(now - lr > RESET_WINDOW) → now - lir > RESET_WINDOW →
      (check_and_reset_user_count now uid w).mem.find uid =
        some ⟨some c, some 0, some lr, some now⟩) := by
  constructor
  · intro h1 h2
    rw [check_and_reset_found now uid c ic lr lir w h]
    simp only [if_pos h1, if_neg h2]
    exact Store.find_set_self _ _ _
  · intro h1 h2
    rw [check_and_reset_found now uid c ic lr lir w h]
    simp only [if_neg h1, if_pos h2]
    exact Store.find_set_self _ _ _

/-- C3 witness: a text-only reset for one concrete user. -/
theorem window_reset_frame_witness :
    (⟨[("u", ⟨some 5, some 3, some 0, some 10⟩)], none⟩ : World).mem.find "u" =
        some ⟨some 5, some 3, some 0, some 10⟩ ∧
      (86401 : Int) - 0 > RESET_WINDOW ∧ ¬((86401 : Int) - 10 > RESET_WINDOW) ∧
      (check_and_reset_user_count 86401 "u"
          ⟨[("u", ⟨some 5, some 3, some 0, some 10⟩)], none⟩).mem.find "u" =
        some ⟨some 0, some 3, some 86401, some 10⟩ :=
  ⟨by decide, by decide, by decide,
   (window_reset_frame 86401 "u" 5 3 0 10
       ⟨[("u", ⟨some 5, some 3, some 0, some 10⟩)], none⟩ (by decide)).1
     (by decide) (by decide)⟩

/-- C4 (amended): within the window (`0 ≤ lastReset + 24h − now < 24h`)
the remaining duration is rendered exactly as whole hours plus remainder
minutes; at the boundary `now = lastReset + 24h` the display is `0h0m`.
(Strictly past the boundary the code wraps the negative duration modulo
24h instead of flooring it to zero; see the counterexample.) -/
theorem time_until_reset_in_window (lr now : Int)
    (h1 : 0 ≤ lr + RESET_WINDOW - now) (h2 : lr + RESET_WINDOW - now < 86400) :
    time_until_reset lr now = specHoursMinutes (lr + RESET_WINDOW - now) ∧
      time_until_reset lr (lr + RESET_WINDOW) = "0h0m".toList := by
  constructor
  · simp only [time_until_reset, specHoursMinutes]
    rw [Int.emod_eq_of_lt h1 h2]
  · simp only [time_until_reset]
    have hz : lr + RESET_WINDOW - (lr + RESET_WINDOW) = 0 := by ring
    rw [hz]
    decide

/-- C4 witness: 30 minutes before the boundary the display is `0h30m`. -/
theorem time_until_reset_in_window_witness :
    (0 : Int) ≤ 0 + RESET_WINDOW - 84600 ∧ (0 : Int) + RESET_WINDOW - 84600 < 86400 ∧
      (time_until_reset 0 84600 = specHoursMinutes (0 + RESET_WINDOW - 84600) ∧
        time_until_reset 0 (0 + RESET_WINDOW) = "0h0m".toList) :=
  ⟨by decide, by decide, time_until_reset_in_window 0 84600 (by decide) (by decide)⟩

/-- C4 counterexample: 30 minutes *past* the boundary the code reports
`23h30m` — a large positive wait — rather than treating the elapsed
window as "reset now" (zero). -/
theorem time_until_reset_wrap_cex :
    (88200 : Int) ≥ 0 + RESET_WINDOW ∧
      time_until_reset 0 88200 = "23h30m".toList ∧
      "23h30m".toList ≠ "0h0m".toList := by
  refine ⟨by decide, by decide, by decide⟩

/-- C7: startup loads the persisted mapping verbatim when it exists and
otherwise persists an empty mapping immediately; and after
`check_and_reset_user_count` (record creation and window resets) and
after handling any non-bot message (including an admitted consume) the
persisted file holds exactly the in-memory mapping. -/
theorem persistence_sync :
    (∀ s : Store, startup (some s) = ⟨s, some s⟩) ∧
    (startup none = ⟨[], some []⟩) ∧
    (∀ (now : Int) (uid : String) (w : World),
      (check_and_reset_user_count now uid w).file =
        some ((check_and_reset_user_count now uid w).mem)) ∧
    (∀ (now : Int) (uid : String) (content : Str) (atts : List Str)
        (oracle : Nat → ApiResult) (w : World),
      (on_message now ⟨false, uid, content, atts⟩ oracle w).w.file =
        some ((on_message now ⟨false, uid, content, atts⟩ oracle w).w.mem)) := by
  refine ⟨fun s => rfl, rfl, check_and_reset_file_sync, ?_⟩
  intro now uid content atts oracle w
  rcases on_message_world_shape now uid content atts oracle w with h | ⟨r', h⟩
  · rw [h]
    exact check_and_reset_file_sync now uid w
  · rw [h]

/-- C9: the first contact of an unknown user creates a record with both
counters 0 and both reset stamps at the creation time; and no operation
(window refresh or message handling) ever removes a record from the
mapping. -/
theorem lazy_creation_no_deletion (now : Int) (uid : String) (w : World) :
    (w.mem.find uid = none →
      (check_and_reset_user_count now uid w).mem.find uid =
        some ⟨some 0, some 0, some now, some now⟩) ∧
    (∀ uid', (w.mem.find uid').isSome →
      ((check_and_reset_user_count now uid w).mem.find uid').isSome) ∧
    (∀ (uid' : String) (content : Str) (atts : List Str)
        (oracle : Nat → ApiResult), (w.mem.find uid').isSome →
      ((on_message now ⟨false, uid, content, atts⟩ oracle w).w.mem.find uid').isSome) := by
  have hpres : ∀ uid', (w.mem.find uid').isSome →
      ((check_and_reset_user_count now uid w).mem.find uid').isSome := by
    intro uid' h
    obtain ⟨r, hr⟩ := check_and_reset_mem_set now uid w
    rw [hr]
    exact Store.find_set_isSome _ _ _ _ h
  refine ⟨?_, hpres, ?_⟩
  · intro h
    rw [check_and_reset_new now uid w h]
    exact Store.find_set_self _ _ _
  · intro uid' content atts oracle h
    rcases on_message_world_shape now uid content atts oracle w with hsh | ⟨r', hsh⟩
    · rw [hsh]
      exact hpres uid' h
    · rw [hsh]
      exact Store.find_set_isSome _ _ _ _ (hpres uid' h)

/-- C9 witness: creating a record for a new user "u" while "v" stays. -/
theorem lazy_creation_no_deletion_witness :
    (⟨[("v", ⟨some 7, some 1, some 2, some 3⟩)], none⟩ : World).mem.find "u" = none ∧
      (check_and_reset_user_count 5 "u"
          ⟨[("v", ⟨some 7, some 1, some 2, some 3⟩)], none⟩).mem.find "u" =
        some ⟨some 0, some 0, some 5, some 5⟩ ∧
      ((⟨[("v", ⟨some 7, some 1, some 2, some 3⟩)], none⟩ : World).mem.find "v").isSome ∧
      ((check_and_reset_user_count 5 "u"
          ⟨[("v", ⟨some 7, some 1, some 2, some 3⟩)], none⟩).mem.find "v").isSome :=
  ⟨by decide,
   (lazy_creation_no_deletion 5 "u"
       ⟨[("v", ⟨some 7, some 1, some 2, some 3⟩)], none⟩).1 (by decide),
   by decide,
   (lazy_creation_no_deletion 5 "u"
       ⟨[("v", ⟨some 7, some 1, some 2, some 3⟩)], none⟩).2.1 "v" (by decide)⟩

/-- C10 (amended): for every record present before the call,
`check_and_reset_user_count` guarantees that `image_count`, `last_reset`
and `last_image_reset` are present afterwards, and preserves the
presence of `count`; but it does not *create* `count`, so only records
that already carried `count` (or got it zeroed by a reset) are safe at
the dispatcher's quota check. -/
theorem post_check_fields_present (now : Int) (uid : String) (w : World)
    (r0 : UserRecord) (h : w.mem.find uid = some r0) :
    ∃ r', (check_and_reset_user_count now uid w).mem.find uid = some r' ∧
      r'.image_count.isSome ∧ r'.last_reset.isSome ∧
      r'.last_image_reset.isSome ∧ (r0.count.isSome → r'.count.isSome) := by
  unfold check_and_reset_user_count
  rw [h]
  refine ⟨_, Store.find_set_self _ _ _, ?_, ?_, ?_, ?_⟩ <;>
    split_ifs <;> simp

/-- C10 witness: a legacy record carrying only `count` is completed. -/
theorem post_check_fields_present_witness :
    (⟨[("u", ⟨some 4, none, none, none⟩)], none⟩ : World).mem.find "u" =
        some ⟨some 4, none, none, none⟩ ∧
      ∃ r', (check_and_reset_user_count 9 "u"
          ⟨[("u", ⟨some 4, none, none, none⟩)], none⟩).mem.find "u" = some r' ∧
        r'.image_count.isSome ∧ r'.last_reset.isSome ∧
        r'.last_image_reset.isSome ∧
        ((⟨some 4, none, none, none⟩ : UserRecord).count.isSome → r'.count.isSome) :=
  ⟨by decide,
   post_check_fields_present 9 "u" ⟨[("u", ⟨some 4, none, none, none⟩)], none⟩
     ⟨some 4, none, none, none⟩ (by decide)⟩

/-- C10 counterexample: a persisted record lacking only `count`, whose
text window has not elapsed, reaches the `!ask` quota check with `count`
still missing — the lookup `user_request_data[uid][\x27count\x27]` raises an
uncaught `KeyError`. -/
theorem missing_count_keyerror_cex :
    (on_message 0 ⟨false, "u", "!ask hi".toList, []⟩ (fun _ => ApiResult.ok [])
        ⟨[("u", ⟨none, some 0, some 0, some 0⟩)], none⟩).keyError = true := by
  decide

/-- C5: when the capability's counter already meets its limit, the
consume attempt is denied: the only reply is the quota message, no
external call is attempted, and the whole world — the user's record and
the persisted mapping — is exactly what `check_and_reset_user_count`
left (the denied attempt itself mutates nothing). -/
theorem denied_request_no_mutation (now : Int) (uid : String) (content : Str)
    (atts : List Str) (oracle : Nat → ApiResult) (w : World) (r : UserRecord) :
    (∀ c lr : Int, pyStartsWith content ("!ask".toList) = true →
      (check_and_reset_user_count now uid w).mem.find uid = some r →
      r.count = some c → c ≥ REQUEST_LIMIT → r.last_reset = some lr →
      on_message now ⟨false, uid, content, atts⟩ oracle w =
        ⟨check_and_reset_user_count now uid w,
         [textQuotaReply (time_until_reset lr now)], [], [], false⟩) ∧
    (∀ ic lir : Int, pyStartsWith content ("!ask".toList) = false →
      pyStartsWith content ("!make".toList) = true →
      (check_and_reset_user_count now uid w).mem.find uid = some r →
      r.image_count = some ic → ic ≥ IMAGE_REQUEST_LIMIT →
      r.last_image_reset = some lir →
      on_message now ⟨false, uid, content, atts⟩ oracle w =
        ⟨check_and_reset_user_count now uid w,
         [imageQuotaReply (time_until_reset lir now)], [], [], false⟩) := by
  constructor
  · intro c lr h1 h2 h3 h4 h5
    exact on_message_ask_denied now uid content atts oracle w r c lr h1 h2 h3 h4 h5
  · intro ic lir h1 h2 h3 h4 h5 h6
    exact on_message_make_denied now uid content atts oracle w r ic lir h1 h2 h3 h4 h5 h6

/-- C5 witness: a user at the text limit (24) is denied with the quota
reply and an unchanged world. -/
theorem denied_request_no_mutation_witness :
    pyStartsWith ("!ask hi".toList) ("!ask".toList) = true ∧
      (check_and_reset_user_count 0 "u"
          ⟨[("u", ⟨some 24, some 0, some 0, some 0⟩)], none⟩).mem.find "u" =
        some ⟨some 24, some 0, some 0, some 0⟩ ∧
      (24 : Int) ≥ REQUEST_LIMIT ∧
      on_message 0 ⟨false, "u", "!ask hi".toList, []⟩ (fun _ => ApiResult.ok [])
          ⟨[("u", ⟨some 24, some 0, some 0, some 0⟩)], none⟩ =
        ⟨check_and_reset_user_count 0 "u"
            ⟨[("u", ⟨some 24, some 0, some 0, some 0⟩)], none⟩,
         [textQuotaReply (time_until_reset 0 0)], [], [], false⟩ :=
  ⟨by decide, by decide, by decide,
   (denied_request_no_mutation 0 "u" ("!ask hi".toList) [] (fun _ => ApiResult.ok [])
       ⟨[("u", ⟨some 24, some 0, some 0, some 0⟩)], none⟩
       ⟨some 24, some 0, some 0, some 0⟩).1 24 0
     (by decide) (by decide) (by decide) (by decide) (by decide)⟩

/-- C6: for an admitted `!ask` request whose completion call raises
`AuthenticationError`, the counter is incremented and persisted before
the call and is not refunded — but the reply is the *generic* `APIError`
apology, not the authentication-specific one, because in the openai v1
hierarchy `AuthenticationError` is a subclass of `APIError` and the
`except APIError` clause comes first (lines 142–156): the
authentication handler is unreachable. -/
theorem auth_failure_counted_generic_reply :
    on_message 0 ⟨false, "u", "!ask hello".toList, []⟩
        (fun _ => ApiResult.exn ApiException.authenticationError)
        (startup none) =
      ⟨⟨[("u", ⟨some 1, some 0, some 0, some 0⟩)],
        some [("u", ⟨some 1, some 0, some 0, some 0⟩)]⟩,
       ["Sorry, there was an issue with the AI service. Please try again later.".toList],
       [("!ask hello".toList, none)], [], false⟩ ∧
      text_error_reply ApiException.authenticationError ≠
        "Sorry, it looks like I\x27ve run out of credits. Please check back later or contact support.".toList := by
  refine ⟨by decide, by decide⟩

/-- C8 counterexample: "!makeup artist" begins with the classification
trigger "!make", yet the prompt sent is "p artist" — the code drops
`len("!make ") = 6` characters, not the 5-character trigger — so the
prompt is not the message text with the trigger stripped and trimmed
(which would be "up artist"). -/
theorem make_trigger_cex :
    pyStartsWith ("!makeup artist".toList) ("!make".toList) = true ∧
      (on_message 0 ⟨false, "u", "!makeup artist".toList, []⟩
          (fun _ => ApiResult.ok []) (startup none)).imageCalls =
        ["p artist".toList] ∧
      "p artist".toList ≠ "up artist".toList := by
  refine ⟨by decide, by decide, by decide⟩

/-- C8 (amended): for every message text of the form `"!make " ++ rest`
(the trigger followed by the space the code strips), the admitted
image request invokes the generation capability exactly once, with
prompt `rest` stripped of surrounding whitespace. -/
theorem make_prompt_stripped (rest : Str) (uid : String) (now : Int)
    (oracle : Nat → ApiResult) :
    (on_message now ⟨false, uid, "!make ".toList ++ rest, []⟩ oracle
        (startup none)).imageCalls = [pyStrip rest] := by
  have hnask : pyStartsWith ("!make ".toList ++ rest) ("!ask".toList) = false := rfl
  have hmake : pyStartsWith ("!make ".toList ++ rest) ("!make".toList) = true := rfl
  have hfind : (check_and_reset_user_count now uid (startup none)).mem.find uid =
      some ⟨some 0, some 0, some now, some now⟩ := by
    rw [check_and_reset_new now uid (startup none) rfl]
    exact Store.find_set_self _ _ _
  have hlt : (0 : Int) < IMAGE_REQUEST_LIMIT := by decide
  have hdrop : ("!make ".toList ++ rest).drop ("!make ".length) = rest := rfl
  cases ho : oracle 0 with
  | ok url =>
    rw [on_message_make_admitted_ok now uid ("!make ".toList ++ rest) [] oracle
      (startup none) ⟨some 0, some 0, some now, some now⟩ 0 url hnask hmake hfind
      rfl hlt ho]
    rw [hdrop]
  | exn e =>
    rw [on_message_make_admitted_exn now uid ("!make ".toList ++ rest) [] oracle
      (startup none) ⟨some 0, some 0, some now, some now⟩ 0 e hnask hmake hfind
      rfl hlt ho]
    rw [hdrop]

/-- After `n ≤ 24` admitted `!ask` messages at one instant, the fresh
user's record reads `count = n` with both windows anchored at `now`. -/
theorem iterAsk_find (now : Int) (uid : String) :
    ∀ n : Nat, n ≤ 24 →
      (iterAsk now uid n
          (check_and_reset_user_count now uid (startup none))).mem.find uid =
        some ⟨some (n : Int), some 0, some now, some now⟩ := by
  intro n
  induction n with
  | zero =>
    intro _
    show (check_and_reset_user_count now uid (startup none)).mem.find uid = _
    rw [check_and_reset_new now uid (startup none) rfl, Store.find_set_self]
    norm_num
  | succ n ih =>
    intro hn
    have hn' : n ≤ 24 := Nat.le_of_succ_le hn
    have hfind0 := ih hn'
    have hnr : ¬(now - now > RESET_WINDOW) := by
      simp only [RESET_WINDOW, RESET_HOURS]
      omega
    have hfind1 := check_and_reset_no_reset now uid (n : Int) 0 now now _ hfind0 hnr hnr
    have hadm : (n : Int) < REQUEST_LIMIT := by
      have hlt : n < 24 := hn
      simp only [REQUEST_LIMIT]
      exact_mod_cast hlt
    simp only [iterAsk, askEvent]
    rw [on_message_ask_admitted_ok now uid ("!ask hello".toList) okOracle _
      ⟨some (n : Int), some 0, some now, some now⟩ (n : Int) ("fine".toList)
      rfl hfind1 rfl hadm rfl]
    simp only [Store.find_set_self, Option.some.injEq, UserRecord.mk.injEq]
    refine ⟨?_, trivial, trivial, trivial⟩
    push_cast
    ring

/-- C1: starting from a fresh user, after `N ≤ 24` admitted `!ask`
requests within one window the text counter equals `N`; one further
`!ask` in the same window makes no completion call and is answered with
the quota-exceeded reply (leaving the counter at `N`) exactly when
`N = 24`, and otherwise is admitted, incrementing the counter to `N + 1`
— the limit is compared against the counter before the increment. -/
theorem text_quota_counting (uid : String) (now : Int) (N : Nat) (hN : N ≤ 24) :
    (iterAsk now uid N
        (check_and_reset_user_count now uid (startup none))).mem.find uid =
      some ⟨some (N : Int), some 0, some now, some now⟩ ∧
    ((on_message now (askEvent uid) okOracle
        (iterAsk now uid N
          (check_and_reset_user_count now uid (startup none)))).chatCalls = [] ↔
      N = 24) ∧
    (N = 24 →
      on_message now (askEvent uid) okOracle
          (iterAsk now uid N
            (check_and_reset_user_count now uid (startup none))) =
        ⟨check_and_reset_user_count now uid
            (iterAsk now uid N
              (check_and_reset_user_count now uid (startup none))),
         [textQuotaReply (time_until_reset now now)], [], [], false⟩) ∧
    (N < 24 →
      (on_message now (askEvent uid) okOracle
          (iterAsk now uid N
            (check_and_reset_user_count now uid (startup none)))).w.mem.find uid =
        some ⟨some ((N : Int) + 1), some 0, some now, some now⟩) := by
  have hfind0 := iterAsk_find now uid N hN
  have hnr : ¬(now - now > RESET_WINDOW) := by
    simp only [RESET_WINDOW, RESET_HOURS]
    omega
  have hfind1 := check_and_reset_no_reset now uid (N : Int) 0 now now _ hfind0 hnr hnr
  by_cases h24 : N = 24
  · subst h24
    have hge : ((24 : Nat) : Int) ≥ REQUEST_LIMIT := by norm_num [REQUEST_LIMIT]
    have hres : on_message now (askEvent uid) okOracle
        (iterAsk now uid 24
          (check_and_reset_user_count now uid (startup none))) =
        ⟨check_and_reset_user_count now uid
            (iterAsk now uid 24
              (check_and_reset_user_count now uid (startup none))),
         [textQuotaReply (time_until_reset now now)], [], [], false⟩ := by
      simp only [askEvent]
      exact on_message_ask_denied now uid _ [] okOracle _ _ ((24 : Nat) : Int)
        now rfl hfind1 rfl hge rfl
    refine ⟨hfind0, ?_, fun _ => hres, fun h => absurd h (lt_irrefl 24)⟩
    rw [hres]
    simp
  · have hlt : N < 24 := lt_of_le_of_ne hN h24
    have hadm : (N : Int) < REQUEST_LIMIT := by
      simp only [REQUEST_LIMIT]
      exact_mod_cast hlt
    have hres := on_message_ask_admitted_ok now uid ("!ask hello".toList) okOracle
      (iterAsk now uid N (check_and_reset_user_count now uid (startup none)))
      ⟨some (N : Int), some 0, some now, some now⟩ (N : Int) ("fine".toList)
      rfl hfind1 rfl hadm rfl
    refine ⟨hfind0, ?_, fun h => absurd h h24, fun _ => ?_⟩
    · simp only [askEvent, hres]
      simp [h24]
    · simp only [askEvent, hres]
      simp only [Store.find_set_self]

/-- C1 witness: the concrete run at `N = 24` — counter 24, denial. -/
theorem text_quota_counting_witness :
    (24 : Nat) ≤ 24 ∧
      ((iterAsk 0 "u" 24 (check_and_reset_user_count 0 "u" (startup none))).mem.find "u" =
          some ⟨some 24, some 0, some 0, some 0⟩ ∧
        ((on_message 0 (askEvent "u") okOracle
            (iterAsk 0 "u" 24 (check_and_reset_user_count 0 "u" (startup none)))).chatCalls = [] ↔
          (24 : Nat) = 24) ∧
        ((24 : Nat) = 24 →
          on_message 0 (askEvent "u") okOracle
              (iterAsk 0 "u" 24 (check_and_reset_user_count 0 "u" (startup none))) =
            ⟨check_and_reset_user_count 0 "u"
                (iterAsk 0 "u" 24 (check_and_reset_user_count 0 "u" (startup none))),
             [textQuotaReply (time_until_reset 0 0)], [], [], false⟩) ∧
        ((24 : Nat) < 24 →
          (on_message 0 (askEvent "u") okOracle
              (iterAsk 0 "u" 24 (check_and_reset_user_count 0 "u" (startup none)))).w.mem.find "u" =
            some ⟨some (24 + 1), some 0, some 0, some 0⟩)) :=
  ⟨by decide, text_quota_counting "u" 0 24 (by decide)⟩
